import Mathlib

/-!
Shallow embedding of the alpha_vantage MCP server core (src/index.ts):
the four tool handlers (`handleGetTickerOhlcv`, `handleGetTickerDividend`,
`handleGetEtfHoldings`, `handleGetExchangeRate`) and the dispatcher
(`callToolHandler`).

Modelling conventions:
* JSON values parsed from the upstream HTTP body, and JavaScript runtime
  values flowing through the handlers, are `JsVal` (with an explicit
  `undef` for the JavaScript value `undefined`).  Numeric and boolean atoms do not
  occur in the upstream payload shapes the handlers read (all fields are
  strings or containers), so the modelled fragment is null / string /
  object / array.  Object field lists represent JSON objects after parsing,
  i.e. with duplicate keys already resolved.
* A JavaScript property access `v[k]` either throws a `TypeError` (on
  `undefined`/`null`) or yields a value; it is `jsGet : JsVal → String →
  Except String JsVal`, where the `String` of the `Except` is the thrown
  `.message` of the thrown error.  Character access on strings and index access on
  arrays by canonical numeric keys are modelled; the `length` property is
  not (no handler reads it, and no claim exercises it).
* The single awaited `axios.get` of each handler is abstracted by an
  `Upstream` parameter: the call either resolved with a parsed body or
  threw an error with a `name` and a `message`.
* Exceptions are the `Except String` monad carrying the error `.message`;
  each handler is its `try` body (`…Body`) wrapped by its `catch` clause.
-/

/-- JavaScript runtime values reaching the handlers: the JSON fragment the
upstream API produces plus `undefined`. -/
inductive JsVal where
  | undef : JsVal
  | null : JsVal
  | str : String → JsVal
  | obj : List (String × JsVal) → JsVal
  | arr : List JsVal → JsVal

/-- JavaScript truthiness for the modelled fragment: `undefined`, `null`
and the empty string are falsy; objects and arrays are always truthy. -/
def truthy : JsVal → Bool
  | JsVal.undef => false
  | .null => false
  | .str s => !(s == "")
  | .obj _ => true
  | .arr _ => true

mutual

/-- JavaScript `String(v)` / template-literal interpolation for the
modelled fragment: `undefined`/`null` print their names, objects print
`[object Object]`, arrays join their elements with commas. -/
def jsToString : JsVal → String
  | JsVal.undef => "undefined"
  | .null => "null"
  | .str s => s
  | .obj _ => "[object Object]"
  | .arr es => String.intercalate "," (jsToStringList es)

/-- Array elements under `Array.prototype.toString`: `undefined` and
`null` render as the empty string inside an array. -/
def jsToStringList : List JsVal → List String
  | [] => []
  | JsVal.undef :: rest => "" :: jsToStringList rest
  | .null :: rest => "" :: jsToStringList rest
  | e :: rest => jsToString e :: jsToStringList rest

end

/-- A canonical array-index key: the decimal rendering of a natural
number with no leading zeros. -/
def canonIndex (k : String) : Option Nat :=
  match k.toNat? with
  | some n => if toString n = k then some n else none
  | none => none

/-- Message of the `TypeError` thrown by reading a property of
`undefined` or `null` (`tn` names the offending value). -/
def readErrMsg (tn k : String) : String :=
  "Cannot read properties of " ++ tn ++ " (reading " ++ k ++ ")"

/-- JavaScript property access `v[k]`: throws a `TypeError` on
`undefined`/`null`; on objects looks the key up (missing key gives
`undefined`); on strings and arrays canonical numeric keys index into the
value and every other key gives `undefined`. -/
def jsGet (v : JsVal) (k : String) : Except String JsVal :=
  match v with
  | JsVal.undef => .error (readErrMsg "undefined" k)
  | .null => .error (readErrMsg "null" k)
  | .str s =>
      .ok (match canonIndex k with
        | some n =>
            match s.data[n]? with
            | some c => .str (String.singleton c)
            | none => JsVal.undef
        | none => JsVal.undef)
  | .obj fields => .ok ((fields.lookup k).getD JsVal.undef)
  | .arr es =>
      .ok (match canonIndex k with
        | some n => es[n]?.getD JsVal.undef
        | none => JsVal.undef)

/-- JavaScript `Object.keys`: throws on `undefined`/`null`; keys of an
object; index strings for strings and arrays. -/
def jsObjectKeys (v : JsVal) : Except String (List String) :=
  match v with
  | JsVal.undef => .error "Cannot convert undefined or null to object"
  | .null => .error "Cannot convert undefined or null to object"
  | .str s => .ok ((List.range s.length).map toString)
  | .obj fields => .ok (fields.map Prod.fst)
  | .arr es => .ok ((List.range es.length).map toString)

/-- Strict equality test `v === ""` used on the `date` argument. -/
def jsIsEmptyString : JsVal → Bool
  | .str s => s == ""
  | _ => false

/-- A thrown JavaScript error: a `name` (e.g. `Error`, `AxiosError`) and a
`message`. -/
structure JsError where
  name : String
  message : String

/-- `Error.prototype.toString`: `name` and `message` joined by `": "`,
each dropped when empty. -/
def jsErrorToString (e : JsError) : String :=
  if e.message = "" then e.name
  else if e.name = "" then e.message
  else e.name ++ ": " ++ e.message

/-- Outcome of the one awaited `axios.get` of a handler: the parsed JSON
body, or the error the call threw. -/
inductive Upstream where
  | success : JsVal → Upstream
  | failure : JsError → Upstream

/-- The inner `try { response = await axios.get(...) } catch (e) { throw
new Error(e) }` of the OHLCV / dividend / holdings handlers: a transport
failure is rethrown as a fresh `Error` whose message is `String(e)`. -/
def fetchWrapped : Upstream → Except String JsVal
  | .success d => .ok d
  | .failure e => .error (jsErrorToString e)

/-- The bare `await axios.get(...)` of the exchange-rate handler (no inner
`try`): a transport failure propagates with its own message. -/
def fetchDirect : Upstream → Except String JsVal
  | .success d => .ok d
  | .failure e => .error e.message

/-- One entry of the `content` sequence of a `ToolResult`. -/
structure ContentItem where
  type : String
  text : String
  deriving DecidableEq, Repr

/-- The uniform `{content, isError}` envelope every handler returns;
source objects that omit `isError` are modelled with `isError = false`. -/
structure ToolResult where
  content : List ContentItem
  isError : Bool
  deriving DecidableEq, Repr

/-- The one result shape the source ever builds: a single text block plus
the error flag. -/
def textResult (s : String) (err : Bool) : ToolResult :=
  ⟨[⟨"text", s⟩], err⟩

/-- The `req.params.arguments` bag as destructured by the handlers. -/
abbrev JsArgs := List (String × JsVal)

/-- Destructuring a field out of the argument bag: a missing field is
`undefined` (destructuring an object never throws). -/
def argGet (args : JsArgs) (k : String) : JsVal :=
  (args.lookup k).getD JsVal.undef

/-- The upstream key holding the date-keyed OHLCV mapping. -/
def tsKey : String := "Time Series (Daily)"

/-- The OHLCV request URL built by `handleGetTickerOhlcv`. -/
def ohlcvRequestUrl (ticker : JsVal) (apiKey : String) : String :=
  "https://www.alphavantage.co/query?function=TIME_SERIES_DAILY&symbol="
    ++ jsToString ticker ++ "&outputsize=full&apikey=" ++ apiKey

/-- Lines 182-185 of src/index.ts: `actualDate` starts as `date`; on the
empty-string sentinel it becomes
`Object.keys(response.data["Time Series (Daily)"])[0]` (index `[0]` of an
empty key array is `undefined`). -/
def resolveActualDate (dateV : JsVal) (data : JsVal) : Except String JsVal :=
  if jsIsEmptyString dateV then
    match jsGet data tsKey with
    | .error e => .error e
    | .ok ts =>
      match jsObjectKeys ts with
      | .error e => .error e
      | .ok keys =>
          .ok (match keys.head? with
            | some k => .str k
            | none => JsVal.undef)
  else .ok dateV

/-- The `try` body of `handleGetTickerOhlcv` (src/index.ts lines
171-235). -/
def ohlcvBody (args : JsArgs) (apiKey : String) (u : Upstream) :
    Except String ToolResult := do
  let ticker := argGet args "ticker"
  let infoType := argGet args "infoType"
  let dateV := argGet args "date"
  let _url := ohlcvRequestUrl ticker apiKey
  let data ← fetchWrapped u
  let actualDate ← resolveActualDate dateV data
  let ts ← jsGet data tsKey
  let ohlcv ← jsGet ts (jsToString actualDate)
  if truthy ohlcv = false then
    pure (textResult ("No data found for " ++ jsToString ticker ++ " on "
      ++ jsToString actualDate ++ ".") true)
  else do
    let openPrice ← jsGet ohlcv "1. open"
    let highPrice ← jsGet ohlcv "2. high"
    let lowPrice ← jsGet ohlcv "3. low"
    let closePrice ← jsGet ohlcv "4. close"
    let volume ← jsGet ohlcv "5. volume"
    let price ← match infoType with
      | .str "open" => Except.ok openPrice
      | .str "high" => Except.ok highPrice
      | .str "low" => Except.ok lowPrice
      | .str "close" => Except.ok closePrice
      | .str "volume" => Except.ok volume
      | v => Except.error ("Invalid infoType: " ++ jsToString v)
    pure (textResult ("The " ++ jsToString infoType ++ " for "
      ++ jsToString ticker ++ " on " ++ jsToString actualDate ++ " is "
      ++ jsToString price) false)

/-- `handleGetTickerOhlcv` (src/index.ts lines 168-248): the `try` body
wrapped by the `catch` clause. -/
def handleGetTickerOhlcv (args : JsArgs) (apiKey : String) (u : Upstream) :
    ToolResult :=
  match ohlcvBody args apiKey u with
  | .ok r => r
  | .error msg =>
      textResult ("Failed to get the " ++ jsToString (argGet args "infoType")
        ++ " price for " ++ jsToString (argGet args "ticker")
        ++ ". Error: " ++ msg) true

/-- The dividend request URL built by `handleGetTickerDividend`. -/
def dividendRequestUrl (ticker : JsVal) (apiKey : String) : String :=
  "https://www.alphavantage.co/query?function=DIVIDENDS&symbol="
    ++ jsToString ticker ++ "&apikey=" ++ apiKey

/-- The `.map` callback of `handleGetTickerDividend`: renders one dividend
record (property access on the record may throw). -/
def renderDividendItem (item : JsVal) : Except String String := do
  let d ← jsGet item "ex_dividend_date"
  let a ← jsGet item "amount"
  pure ("Ex-Dividend Date: " ++ jsToString d ++ ", Amount: " ++ jsToString a)

/-- The `try` body of `handleGetTickerDividend` (src/index.ts lines
253-288).  Calling `.map` on a truthy non-array throws. -/
def dividendBody (args : JsArgs) (apiKey : String) (u : Upstream) :
    Except String ToolResult := do
  let ticker := argGet args "ticker"
  let _url := dividendRequestUrl ticker apiKey
  let data ← fetchWrapped u
  let dividendHistory ← jsGet data "data"
  if truthy dividendHistory = false then
    pure (textResult ("No dividend data found for " ++ jsToString ticker
      ++ ".") true)
  else
    match dividendHistory with
    | .arr items => do
        let lines ← items.mapM renderDividendItem
        pure (textResult ("Dividend history for " ++ jsToString ticker
          ++ ":\n" ++ String.intercalate "\n" lines) false)
    | _ => Except.error "dividendHistory.map is not a function"

/-- `handleGetTickerDividend` (src/index.ts lines 250-301). -/
def handleGetTickerDividend (args : JsArgs) (apiKey : String) (u : Upstream) :
    ToolResult :=
  match dividendBody args apiKey u with
  | .ok r => r
  | .error msg =>
      textResult ("Failed to get the dividend data for "
        ++ jsToString (argGet args "ticker") ++ ". Error: " ++ msg) true

/-- The ETF-profile request URL built by `handleGetEtfHoldings`. -/
def holdingsRequestUrl (ticker : JsVal) (apiKey : String) : String :=
  "https://www.alphavantage.co/query?function=ETF_PROFILE&symbol="
    ++ jsToString ticker ++ "&apikey=" ++ apiKey

/-- The `.map` callback of `handleGetEtfHoldings`: renders one holding
record. -/
def renderHoldingItem (item : JsVal) : Except String String := do
  let d ← jsGet item "description"
  let s ← jsGet item "symbol"
  let w ← jsGet item "weight"
  pure ("Holding: " ++ jsToString d ++ " (" ++ jsToString s ++ "), Weight: "
    ++ jsToString w)

/-- The `try` body of `handleGetEtfHoldings` (src/index.ts lines
306-342). -/
def holdingsBody (args : JsArgs) (apiKey : String) (u : Upstream) :
    Except String ToolResult := do
  let ticker := argGet args "ticker"
  let _url := holdingsRequestUrl ticker apiKey
  let data ← fetchWrapped u
  let holdingsData ← jsGet data "holdings"
  if truthy holdingsData = false then
    pure (textResult ("No holdings data found for " ++ jsToString ticker
      ++ ".") true)
  else
    match holdingsData with
    | .arr items => do
        let lines ← items.mapM renderHoldingItem
        pure (textResult ("Holdings for " ++ jsToString ticker ++ ":\n"
          ++ String.intercalate "\n" lines) false)
    | _ => Except.error "holdingsData.map is not a function"

/-- `handleGetEtfHoldings` (src/index.ts lines 303-355). -/
def handleGetEtfHoldings (args : JsArgs) (apiKey : String) (u : Upstream) :
    ToolResult :=
  match holdingsBody args apiKey u with
  | .ok r => r
  | .error msg =>
      textResult ("Failed to get the holdings data for "
        ++ jsToString (argGet args "ticker") ++ ". Error: " ++ msg) true

/-- The exchange-rate request URL built by `handleGetExchangeRate`. -/
def exchangeRequestUrl (fromCurrency toCurrency : JsVal) (apiKey : String) :
    String :=
  "https://www.alphavantage.co/query?function=CURRENCY_EXCHANGE_RATE&from_currency="
    ++ jsToString fromCurrency ++ "&to_currency=" ++ jsToString toCurrency
    ++ "&apikey=" ++ apiKey

/-- The `try` body of `handleGetExchangeRate` (src/index.ts lines
360-388): no inner `try` around the fetch, and the extracted
`"5. Exchange Rate"` field is interpolated without any presence check. -/
def exchangeBody (args : JsArgs) (apiKey : String) (u : Upstream) :
    Except String ToolResult := do
  let fromCurrency := argGet args "fromCurrency"
  let toCurrency := argGet args "toCurrency"
  let _url := exchangeRequestUrl fromCurrency toCurrency apiKey
  let data ← fetchDirect u
  let priceData ← jsGet data "Realtime Currency Exchange Rate"
  if truthy priceData = false then
    pure (textResult ("Could not retrieve exchange rate for "
      ++ jsToString fromCurrency ++ " to " ++ jsToString toCurrency ++ ".")
      true)
  else do
    let exchangeRate ← jsGet priceData "5. Exchange Rate"
    pure (textResult ("The exchange rate from " ++ jsToString fromCurrency
      ++ " to " ++ jsToString toCurrency ++ " is "
      ++ jsToString exchangeRate) false)

/-- `handleGetExchangeRate` (src/index.ts lines 357-401). -/
def handleGetExchangeRate (args : JsArgs) (apiKey : String) (u : Upstream) :
    ToolResult :=
  match exchangeBody args apiKey u with
  | .ok r => r
  | .error msg =>
      textResult ("Failed to get the exchange rate for "
        ++ jsToString (argGet args "fromCurrency") ++ " to "
        ++ jsToString (argGet args "toCurrency") ++ ". Error: " ++ msg) true

/-- Falsiness of `process.env.ALPHAVANTAGE_API_KEY`: absent or the empty
string. -/
def envMissing : Option String → Bool
  | none => true
  | some s => s == ""

/-- `callToolHandler` (src/index.ts lines 403-432): throws
(`Except.error`) when the API key is falsy, otherwise dispatches on the
tool name, with an error-flagged not-found result as the default. -/
def callToolHandler (envApiKey : Option String) (toolName : String)
    (args : JsArgs) (u : Upstream) : Except String ToolResult :=
  if envMissing envApiKey then
    Except.error "ALPHAVANTAGE_API_KEY is not set"
  else
    let apiKey := envApiKey.getD ""
    Except.ok (match toolName with
      | "get_ticker_ohlcv" => handleGetTickerOhlcv args apiKey u
      | "get_ticker_dividend" => handleGetTickerDividend args apiKey u
      | "get_etf_holdings" => handleGetEtfHoldings args apiKey u
      | "get_exchange_rate" => handleGetExchangeRate args apiKey u
      | name => textResult ("Tool " ++ name ++ " not found.") true)

/-- Shape of one record of the date-keyed OHLCV mapping with the five
numbered fields. -/
def mkOhlcvRecord (o hi lo c v : String) : JsVal :=
  .obj [("1. open", .str o), ("2. high", .str hi), ("3. low", .str lo),
    ("4. close", .str c), ("5. volume", .str v)]

/-- Shape of one upstream dividend record. -/
def mkDividendRecord (p : String × String) : JsVal :=
  .obj [("ex_dividend_date", .str p.1), ("amount", .str p.2)]

/-- C3: with the empty-string date sentinel, `actualDate` resolves to the
first key of the upstream "Time Series (Daily)" mapping, whatever that key
is and however the remaining keys are ordered (no sort is performed). -/
theorem resolve_empty_date_first_key (k : String) (v : JsVal)
    (rest : List (String × JsVal)) :
    resolveActualDate (.str "") (.obj [(tsKey, .obj ((k, v) :: rest))])
      = .ok (.str k) := by
  simp [resolveActualDate, jsIsEmptyString, jsGet, jsObjectKeys, tsKey]

/-- C8: a missing or empty `ALPHAVANTAGE_API_KEY` makes `callToolHandler`
throw before dispatching, for every tool name, argument bag and upstream
outcome: the result is an `Except.error`, never a per-tool `ToolResult`. -/
theorem apikey_fatal (envApiKey : Option String) (toolName : String)
    (args : JsArgs) (u : Upstream)
    (h : envApiKey = none ∨ envApiKey = some "") :
    callToolHandler envApiKey toolName args u
      = Except.error "ALPHAVANTAGE_API_KEY is not set" := by
  rcases h with h | h <;> subst h <;> rfl

/-- Witness for `apikey_fatal` at a concrete input. -/
theorem apikey_fatal_witness :
    callToolHandler none "get_ticker_ohlcv" [] (.success .null)
      = Except.error "ALPHAVANTAGE_API_KEY is not set" :=
  apikey_fatal none "get_ticker_ohlcv" [] (.success .null) (Or.inl rfl)

/-- C4: any tool name other than the four registered ones dispatches to
the default arm: a normal (non-thrown) error-flagged result with text
`Tool <name> not found.`. -/
theorem dispatch_unknown_tool (envKey toolName : String) (args : JsArgs)
    (u : Upstream) (hkey : envKey ≠ "")
    (h1 : toolName ≠ "get_ticker_ohlcv")
    (h2 : toolName ≠ "get_ticker_dividend")
    (h3 : toolName ≠ "get_etf_holdings")
    (h4 : toolName ≠ "get_exchange_rate") :
    callToolHandler (some envKey) toolName args u
      = Except.ok (textResult ("Tool " ++ toolName ++ " not found.") true) := by
  unfold callToolHandler envMissing
  rw [if_neg (by simp [hkey])]
  split <;> simp_all

/-- Witness for `dispatch_unknown_tool` at a concrete input. -/
theorem dispatch_unknown_tool_witness :
    callToolHandler (some "key") "foo" [] (.success .null)
      = Except.ok (textResult "Tool foo not found." true) :=
  dispatch_unknown_tool "key" "foo" [] (.success .null)
    (by decide) (by decide) (by decide) (by decide) (by decide)

/-- C6: when the date-keyed mapping has no record at the requested date,
the OHLCV handler returns a normal error-flagged not-found result. -/
theorem ohlcv_no_data (ticker it date ad apiKey : String)
    (fields : List (String × JsVal))
    (hres : resolveActualDate (.str date) (.obj [(tsKey, .obj fields)])
      = .ok (.str ad))
    (habs : fields.lookup ad = none) :
    handleGetTickerOhlcv [("ticker", .str ticker), ("infoType", .str it),
      ("date", .str date)] apiKey (.success (.obj [(tsKey, .obj fields)]))
      = textResult ("No data found for " ++ ticker ++ " on " ++ ad ++ ".")
          true := by
  unfold handleGetTickerOhlcv ohlcvBody
  simp [argGet, List.lookup, hres, jsGet, truthy, jsToString,
    fetchWrapped, habs, bind, Except.bind, pure, Except.pure]

/-- Witness for `ohlcv_no_data`: the example the spec gives. -/
theorem ohlcv_no_data_witness :
    handleGetTickerOhlcv [("ticker", .str "AAPL"), ("infoType", .str "close"),
      ("date", .str "2024-01-02")] "key"
      (.success (.obj [(tsKey, .obj [])]))
      = textResult "No data found for AAPL on 2024-01-02." true :=
  ohlcv_no_data "AAPL" "close" "2024-01-02" "2024-01-02" "key" [] rfl rfl

/-- C9: when the exchange-rate object is present but its
`"5. Exchange Rate"` field is absent, the handler reports success
(`isError = false`) and interpolates `undefined` into the text. -/
theorem exchange_missing_rate_field (f t apiKey : String)
    (fields : List (String × JsVal))
    (habs : fields.lookup "5. Exchange Rate" = none) :
    handleGetExchangeRate [("fromCurrency", .str f), ("toCurrency", .str t)]
      apiKey (.success (.obj [("Realtime Currency Exchange Rate",
        .obj fields)]))
      = textResult ("The exchange rate from " ++ f ++ " to " ++ t
          ++ " is undefined") false := by
  unfold handleGetExchangeRate exchangeBody
  simp [argGet, List.lookup, jsGet, truthy, jsToString, fetchDirect, habs,
    bind, Except.bind, pure, Except.pure, String.append_assoc]

/-- Witness for `exchange_missing_rate_field` at a concrete input. -/
theorem exchange_missing_rate_field_witness :
    handleGetExchangeRate [("fromCurrency", .str "USD"),
      ("toCurrency", .str "EUR")] "key"
      (.success (.obj [("Realtime Currency Exchange Rate", .obj [])]))
      = textResult "The exchange rate from USD to EUR is undefined" false :=
  exchange_missing_rate_field "USD" "EUR" "key" [] rfl

/-- C10: when the parsed upstream body has no "Time Series (Daily)" key at
all (e.g. a rate-limit note), the throw from indexing or key-listing
`undefined` is caught by the outer catch and surfaces as the
transport-style `Failed to get ...` error result — not the
`No data found ...` message and not an escaped exception. -/
theorem ohlcv_missing_timeseries (ticker it date apiKey : String)
    (fields : List (String × JsVal))
    (habs : fields.lookup tsKey = none) :
    handleGetTickerOhlcv [("ticker", .str ticker), ("infoType", .str it),
      ("date", .str date)] apiKey (.success (.obj fields))
      = textResult ("Failed to get the " ++ it ++ " price for " ++ ticker
          ++ ". Error: "
          ++ (if date = "" then "Cannot convert undefined or null to object"
              else readErrMsg "undefined" date)) true := by
  by_cases hd : date = ""
  · subst hd
    unfold handleGetTickerOhlcv ohlcvBody resolveActualDate
    simp [argGet, List.lookup, jsIsEmptyString, jsGet, jsObjectKeys, truthy,
      jsToString, fetchWrapped, habs, bind, Except.bind, pure, Except.pure]
  · have hdb : (date == "") = false := beq_eq_false_iff_ne.mpr hd
    unfold handleGetTickerOhlcv ohlcvBody resolveActualDate
    simp [argGet, List.lookup, jsIsEmptyString, hdb, jsGet, truthy,
      jsToString, fetchWrapped, habs, bind, Except.bind, pure, Except.pure, hd]

/-- Witness for `ohlcv_missing_timeseries`: a rate-limit note body. -/
theorem ohlcv_missing_timeseries_witness :
    handleGetTickerOhlcv [("ticker", .str "AAPL"), ("infoType", .str "close"),
      ("date", .str "2024-01-02")] "key"
      (.success (.obj [("Note", .str "rate limited")]))
      = textResult ("Failed to get the close price for AAPL. Error: "
          ++ readErrMsg "undefined" "2024-01-02") true := by
  have h := ohlcv_missing_timeseries "AAPL" "close" "2024-01-02" "key"
    [("Note", .str "rate limited")] rfl
  simpa using h

/-- C2: when the date-keyed mapping holds a record with the five numbered
fields at the requested date, the OHLCV handler reports success and its
text is `The <infoType> for <ticker> on <actualDate> is <price>`, with
`<price>` the literal upstream string of the field selected by
`infoType` — no parsing or rounding. -/
theorem ohlcv_success_text (ticker date ad o hi lo c v it apiKey : String)
    (fields : List (String × JsVal))
    (hres : resolveActualDate (.str date) (.obj [(tsKey, .obj fields)])
      = .ok (.str ad))
    (hrec : fields.lookup ad = some (mkOhlcvRecord o hi lo c v))
    (hit : it = "open" ∨ it = "high" ∨ it = "low" ∨ it = "close"
      ∨ it = "volume") :
    handleGetTickerOhlcv
      [("ticker", .str ticker), ("infoType", .str it), ("date", .str date)]
      apiKey
      (.success (.obj [(tsKey, .obj fields)]))
      = textResult ("The " ++ it ++ " for " ++ ticker ++ " on " ++ ad
          ++ " is "
          ++ (if it = "open" then o else if it = "high" then hi
              else if it = "low" then lo else if it = "close" then c else v))
          false := by
  unfold handleGetTickerOhlcv ohlcvBody
  rcases hit with h | h | h | h | h <;> subst h <;>
    simp [argGet, List.lookup, hres, hrec, jsGet, truthy, jsToString,
      fetchWrapped, mkOhlcvRecord, bind, Except.bind, pure, Except.pure]

/-- Witness for `ohlcv_success_text`: the example the spec gives. -/
theorem ohlcv_success_text_witness :
    handleGetTickerOhlcv
      [("ticker", .str "AAPL"), ("infoType", .str "close"),
        ("date", .str "2024-01-02")] "key"
      (.success (.obj [(tsKey, .obj [("2024-01-02",
        mkOhlcvRecord "184.0" "186.0" "183.0" "185.64" "82488700")])]))
      = textResult "The close for AAPL on 2024-01-02 is 185.64" false := by
  have h := ohlcv_success_text "AAPL" "2024-01-02" "2024-01-02" "184.0"
    "186.0" "183.0" "185.64" "82488700" "close" "key"
    [("2024-01-02", mkOhlcvRecord "184.0" "186.0" "183.0" "185.64"
      "82488700")] rfl rfl (Or.inr (Or.inr (Or.inr (Or.inl rfl))))
  simpa using h

/-- C5 counterexample: with an unrecognized `infoType`, the result text is
NOT `Invalid infoType: <value>`; the thrown message is wrapped by the
outer catch into `Failed to get the <infoType> price for <ticker>.
Error: Invalid infoType: <value>`. -/
theorem invalid_infoType_text_cex :
    handleGetTickerOhlcv
      [("ticker", .str "AAPL"), ("infoType", .str "foo"),
        ("date", .str "2024-01-02")] "key"
      (.success (.obj [(tsKey, .obj [("2024-01-02",
        mkOhlcvRecord "184.0" "186.0" "183.0" "185.64" "82488700")])]))
      = textResult
          "Failed to get the foo price for AAPL. Error: Invalid infoType: foo"
          true
    ∧ textResult
        "Failed to get the foo price for AAPL. Error: Invalid infoType: foo"
        true
      ≠ textResult "Invalid infoType: foo" true :=
  ⟨by decide, by decide⟩

/-- C5 amended: an `infoType` outside the five recognized values (with a
record present at the requested date) yields an error-flagged result whose
text embeds the `Invalid infoType: <value>` message after the
`Failed to get the <infoType> price for <ticker>. Error: ` wrapper. -/
theorem invalid_infoType_wrapped (ticker date it o hi lo c v apiKey : String)
    (rest : List (String × JsVal)) (hdate : date ≠ "")
    (h1 : it ≠ "open") (h2 : it ≠ "high") (h3 : it ≠ "low")
    (h4 : it ≠ "close") (h5 : it ≠ "volume") :
    handleGetTickerOhlcv
      [("ticker", .str ticker), ("infoType", .str it), ("date", .str date)]
      apiKey
      (.success (.obj [(tsKey,
        .obj ((date, mkOhlcvRecord o hi lo c v) :: rest))]))
      = textResult ("Failed to get the " ++ it ++ " price for " ++ ticker
          ++ ". Error: " ++ ("Invalid infoType: " ++ it)) true := by
  have hd : (date == "") = false := beq_eq_false_iff_ne.mpr hdate
  unfold handleGetTickerOhlcv ohlcvBody resolveActualDate
  simp only [argGet, List.lookup, jsIsEmptyString, hd, jsGet, tsKey, truthy,
    jsToString, fetchWrapped, mkOhlcvRecord, bind, Except.bind, pure,
    Except.pure]
  split <;> simp_all [argGet, List.lookup, jsToString]

/-- Witness for `invalid_infoType_wrapped` at a concrete input. -/
theorem invalid_infoType_wrapped_witness :
    handleGetTickerOhlcv
      [("ticker", .str "AAPL"), ("infoType", .str "foo"),
        ("date", .str "2024-01-02")] "key"
      (.success (.obj [(tsKey, .obj [("2024-01-02",
        mkOhlcvRecord "184.0" "186.0" "183.0" "185.64" "82488700")])]))
      = textResult
          ("Failed to get the foo price for AAPL. Error: "
            ++ ("Invalid infoType: " ++ "foo")) true := by
  have h := invalid_infoType_wrapped "AAPL" "2024-01-02" "foo" "184.0"
    "186.0" "183.0" "185.64" "82488700" "key" [] (by decide) (by decide)
    (by decide) (by decide) (by decide) (by decide)
  simpa using h

/-- Rendering a list of well-formed dividend records never throws and
produces one `Ex-Dividend Date: <date>, Amount: <amount>` line per
record. -/
theorem mapM_loop_renderDividend (recs : List (String × String))
    (acc : List String) :
    List.mapM.loop renderDividendItem (recs.map mkDividendRecord) acc
      = Except.ok (acc.reverse ++ recs.map (fun p =>
          "Ex-Dividend Date: " ++ p.1 ++ ", Amount: " ++ p.2)) := by
  induction recs generalizing acc with
  | nil => simp [List.mapM.loop, pure, Except.pure]
  | cons p rest ih =>
      simp [List.mapM.loop, renderDividendItem, mkDividendRecord, jsGet,
        List.lookup, jsToString, bind, Except.bind, pure, Except.pure, ih]

/-- C7: an absent `data` sequence is an error-flagged
`No dividend data found for <ticker>.`; a present sequence — empty or
not — is a success whose text is the `Dividend history for <ticker>:`
header followed by one rendered line per record (none for the empty
sequence). -/
theorem dividend_absent_empty_present (ticker apiKey : String)
    (dv : Option (List (String × String))) :
    handleGetTickerDividend [("ticker", .str ticker)] apiKey
      (.success (match dv with
        | none => JsVal.obj []
        | some recs =>
            JsVal.obj [("data", .arr (recs.map mkDividendRecord))]))
      = (match dv with
        | none =>
            textResult ("No dividend data found for " ++ ticker ++ ".") true
        | some recs =>
            textResult ("Dividend history for " ++ ticker ++ ":\n"
              ++ String.intercalate "\n" (recs.map (fun p =>
                "Ex-Dividend Date: " ++ p.1 ++ ", Amount: " ++ p.2))) false) := by
  cases dv with
  | none =>
      unfold handleGetTickerDividend dividendBody
      simp [argGet, List.lookup, jsGet, truthy, jsToString, fetchWrapped,
        bind, Except.bind, pure, Except.pure]
  | some recs =>
      unfold handleGetTickerDividend dividendBody
      simp [argGet, List.lookup, jsGet, truthy, jsToString, fetchWrapped,
        mapM_loop_renderDividend, bind, Except.bind, pure, Except.pure]

/-- Every successful run of the OHLCV `try` body yields a single-text
envelope. -/
theorem ohlcvBody_ok_shape {args : JsArgs} {apiKey : String} {u : Upstream}
    {r : ToolResult} (h : ohlcvBody args apiKey u = Except.ok r) :
    ∃ s b, r = textResult s b := by
  unfold ohlcvBody at h
  simp only [bind, Except.bind, pure, Except.pure] at h
  repeat' split at h
  all_goals first
    | exact ⟨_, _, (Except.ok.inj h).symm⟩
    | simp at h

/-- Every successful run of the dividend `try` body yields a single-text
envelope. -/
theorem dividendBody_ok_shape {args : JsArgs} {apiKey : String}
    {u : Upstream} {r : ToolResult}
    (h : dividendBody args apiKey u = Except.ok r) :
    ∃ s b, r = textResult s b := by
  unfold dividendBody at h
  simp only [bind, Except.bind, pure, Except.pure] at h
  repeat' split at h
  all_goals first
    | exact ⟨_, _, (Except.ok.inj h).symm⟩
    | simp at h

/-- Every successful run of the holdings `try` body yields a single-text
envelope. -/
theorem holdingsBody_ok_shape {args : JsArgs} {apiKey : String}
    {u : Upstream} {r : ToolResult}
    (h : holdingsBody args apiKey u = Except.ok r) :
    ∃ s b, r = textResult s b := by
  unfold holdingsBody at h
  simp only [bind, Except.bind, pure, Except.pure] at h
  repeat' split at h
  all_goals first
    | exact ⟨_, _, (Except.ok.inj h).symm⟩
    | simp at h

/-- Every successful run of the exchange-rate `try` body yields a
single-text envelope. -/
theorem exchangeBody_ok_shape {args : JsArgs} {apiKey : String}
    {u : Upstream} {r : ToolResult}
    (h : exchangeBody args apiKey u = Except.ok r) :
    ∃ s b, r = textResult s b := by
  unfold exchangeBody at h
  simp only [bind, Except.bind, pure, Except.pure] at h
  repeat' split at h
  all_goals first
    | exact ⟨_, _, (Except.ok.inj h).symm⟩
    | simp at h

/-- C1: for every argument bag and every upstream outcome (success with
any parsed body, or transport failure), each of the four handlers is a
total function returning exactly one single-text `ToolResult`, and
whenever its `try` body throws, the catch clause converts the throw into
an error-flagged result — no exception escapes a handler. -/
theorem handlers_one_result (args : JsArgs) (apiKey : String)
    (u : Upstream) :
    ((∃ s b, handleGetTickerOhlcv args apiKey u = textResult s b) ∧
      ∀ m, ohlcvBody args apiKey u = Except.error m →
        (handleGetTickerOhlcv args apiKey u).isError = true) ∧
    ((∃ s b, handleGetTickerDividend args apiKey u = textResult s b) ∧
      ∀ m, dividendBody args apiKey u = Except.error m →
        (handleGetTickerDividend args apiKey u).isError = true) ∧
    ((∃ s b, handleGetEtfHoldings args apiKey u = textResult s b) ∧
      ∀ m, holdingsBody args apiKey u = Except.error m →
        (handleGetEtfHoldings args apiKey u).isError = true) ∧
    ((∃ s b, handleGetExchangeRate args apiKey u = textResult s b) ∧
      ∀ m, exchangeBody args apiKey u = Except.error m →
        (handleGetExchangeRate args apiKey u).isError = true) := by
  refine ⟨⟨?_, ?_⟩, ⟨?_, ?_⟩, ⟨?_, ?_⟩, ⟨?_, ?_⟩⟩
  · cases hb : ohlcvBody args apiKey u with
    | ok r =>
        obtain ⟨s, b, hr⟩ := ohlcvBody_ok_shape hb
        exact ⟨s, b, by unfold handleGetTickerOhlcv; rw [hb, hr]⟩
    | error m =>
        exact ⟨_, _, by unfold handleGetTickerOhlcv; rw [hb]⟩
  · intro m hm
    unfold handleGetTickerOhlcv
    rw [hm]
    rfl
  · cases hb : dividendBody args apiKey u with
    | ok r =>
        obtain ⟨s, b, hr⟩ := dividendBody_ok_shape hb
        exact ⟨s, b, by unfold handleGetTickerDividend; rw [hb, hr]⟩
    | error m =>
        exact ⟨_, _, by unfold handleGetTickerDividend; rw [hb]⟩
  · intro m hm
    unfold handleGetTickerDividend
    rw [hm]
    rfl
  · cases hb : holdingsBody args apiKey u with
    | ok r =>
        obtain ⟨s, b, hr⟩ := holdingsBody_ok_shape hb
        exact ⟨s, b, by unfold handleGetEtfHoldings; rw [hb, hr]⟩
    | error m =>
        exact ⟨_, _, by unfold handleGetEtfHoldings; rw [hb]⟩
  · intro m hm
    unfold handleGetEtfHoldings
    rw [hm]
    rfl
  · cases hb : exchangeBody args apiKey u with
    | ok r =>
        obtain ⟨s, b, hr⟩ := exchangeBody_ok_shape hb
        exact ⟨s, b, by unfold handleGetExchangeRate; rw [hb, hr]⟩
    | error m =>
        exact ⟨_, _, by unfold handleGetExchangeRate; rw [hb]⟩
  · intro m hm
    unfold handleGetExchangeRate
    rw [hm]
    rfl

/-- Witness for `handlers_one_result` at a concrete input: an empty
argument bag and a failing upstream call still produce a caught,
error-flagged result. -/
theorem handlers_one_result_witness :
    (handleGetTickerOhlcv [] "key"
      (.failure ⟨"Error", "boom"⟩)).isError = true :=
  (handlers_one_result [] "key" (.failure ⟨"Error", "boom"⟩)).1.2
    "Error: boom" rfl
